import Mathlib

/-!
Verification of the TIM toolkit's classification and validation pipeline:
a shallow embedding of `src/tim_toolkit/diagnostics.py`,
`src/tim_toolkit/validator.py` and `src/tim_toolkit/classifier.py`.

Python floats appear only in threshold comparisons and fixed-point scores,
so they are modelled as rationals; Python strings are lists of characters,
and a match position is the character offset of the match start.
-/

namespace TIM

/-- `Status` enum of `diagnostics.py`. -/
inductive Status where
  | success
  | unstable
  | failed
deriving DecidableEq

/-- `Diagnostic` enum of `diagnostics.py`. -/
inductive Diagnostic where
  | underCompression
  | decoherence
  | coercionDetected
  | expectationBreak
  | coherenceVerified
  | compressionRatioLow
  | compressionRatioHigh
  | semanticSurprise
  | narrativeFlowBroken
  | boundaryInsightWeak
deriving DecidableEq

/-- Metadata mapping; the pipeline never inspects its values, only whether
it was supplied, so string pairs suffice. -/
abbrev Metadata : Type := List (String × String)

/-- `DiagnosticReport` dataclass of `diagnostics.py`. -/
structure DiagnosticReport where
  status : Status
  diagnostics : List Diagnostic
  compression_ratio : ℚ
  coherence_score : ℚ
  breaks_detected : Nat
  coercion_detected : Bool
  metadata : Metadata

/-- `DiagnosticValidator.determine_status` of `diagnostics.py`. -/
def determine_status (diagnostics : List Diagnostic) : Status :=
  if Diagnostic.coercionDetected ∈ diagnostics then Status.failed
  else if Diagnostic.decoherence ∈ diagnostics then Status.unstable
  else if Diagnostic.coherenceVerified ∈ diagnostics then Status.success
  else if diagnostics.length > 0 then Status.unstable
  else Status.success

/-- `DiagnosticValidator.validate_compression_ratio` of `diagnostics.py`. -/
def validate_compression_ratio (ratio : ℚ) : Option Diagnostic :=
  if ratio < 0.5 then some Diagnostic.compressionRatioLow
  else if ratio > 2.0 then some Diagnostic.compressionRatioHigh
  else none

/-- `DiagnosticValidator.validate_coherence_score` of `diagnostics.py`. -/
def validate_coherence_score (score : ℚ) : Option Diagnostic :=
  if score < 0.6 then some Diagnostic.decoherence
  else if score ≥ 0.8 then some Diagnostic.coherenceVerified
  else none

/-- `DiagnosticValidator.build_report` of `diagnostics.py`: the diagnostics
list grows by `append` in source order, then the status is derived. -/
def build_report (compression_ratio : ℚ) (coherence_score : ℚ)
    (breaks_detected : Nat) (coercion_detected : Bool)
    (semantic_surprise : Bool) (metadata : Option Metadata) : DiagnosticReport :=
  let d1 : List Diagnostic :=
    match validate_compression_ratio compression_ratio with
    | some d => [d]
    | none => []
  let d2 : List Diagnostic :=
    match validate_coherence_score coherence_score with
    | some d => d1 ++ [d]
    | none => d1
  let d3 : List Diagnostic :=
    if coercion_detected then d2 ++ [Diagnostic.coercionDetected] else d2
  let d4 : List Diagnostic :=
    if breaks_detected > 0 then d3 ++ [Diagnostic.expectationBreak] else d3
  let d5 : List Diagnostic :=
    if semantic_surprise then d4 ++ [Diagnostic.semanticSurprise] else d4
  { status := determine_status d5
    diagnostics := d5
    compression_ratio := compression_ratio
    coherence_score := coherence_score
    breaks_detected := breaks_detected
    coercion_detected := coercion_detected
    metadata := metadata.getD [] }

/-- The six suggestion strings of `DiagnosticLogger.suggest_refinement`,
keyed by the diagnostic they answer, in the source's test order. -/
def refinement_table : List (Diagnostic × String) :=
  [ (Diagnostic.underCompression,
      "Expand the joke further; the insight needs more unfolding."),
    (Diagnostic.decoherence,
      "Refocus the narrative; the core insight is getting lost."),
    (Diagnostic.coercionDetected,
      "Reframe as invitation, not demand. Let the reader choose."),
    (Diagnostic.compressionRatioLow,
      "The expansion is too minimal. Add more verses or layers."),
    (Diagnostic.compressionRatioHigh,
      "The expansion is too verbose. Tighten the narrative."),
    (Diagnostic.boundaryInsightWeak,
      "Strengthen the boundary insight; it's the anchor of the song.") ]

/-- `DiagnosticLogger.suggest_refinement` of `diagnostics.py`: a chain of
membership tests in the fixed order of `refinement_table`. -/
def suggest_refinement (report : DiagnosticReport) : Option String :=
  if Diagnostic.underCompression ∈ report.diagnostics then
    some "Expand the joke further; the insight needs more unfolding."
  else if Diagnostic.decoherence ∈ report.diagnostics then
    some "Refocus the narrative; the core insight is getting lost."
  else if Diagnostic.coercionDetected ∈ report.diagnostics then
    some "Reframe as invitation, not demand. Let the reader choose."
  else if Diagnostic.compressionRatioLow ∈ report.diagnostics then
    some "The expansion is too minimal. Add more verses or layers."
  else if Diagnostic.compressionRatioHigh ∈ report.diagnostics then
    some "The expansion is too verbose. Tighten the narrative."
  else if Diagnostic.boundaryInsightWeak ∈ report.diagnostics then
    some "Strengthen the boundary insight; it's the anchor of the song."
  else none

/-! ## A small matching engine for the toolkit's compiled patterns

The two scanner modules compile fixed Python regular expressions with
`re.IGNORECASE` (every `.` appears under `re.DOTALL`).  The abstract syntax
below covers exactly the constructs those patterns use: literals,
whitespace `\s`, word characters `\w`, concatenation, prioritised
alternation, greedy `?`/`+`, the lazy `.*?`, numbered capture groups,
backreferences and one negative lookahead.  `mAll` enumerates the possible
match ends at a position in Python's backtracking priority order, so the
head of the list is the match Python reports. -/

/-- Pattern syntax. -/
inductive RE where
  | eps
  | anyc
  | lit (c : Char)
  | wsc
  | wordc
  | cat (r1 r2 : RE)
  | alt (r1 r2 : RE)
  | opt (r : RE)
  | starG (r : RE)
  | starL (r : RE)
  | group (n : Nat) (r : RE)
  | bref (n : Nat)
  | nla (r : RE)

/-- Capture-group spans, group `n` at index `n - 1`. -/
abbrev Caps : Type := List (Option (Nat × Nat))

/-- Record the span of capture group `n`. -/
def setCap (n a b : Nat) (caps : Caps) : Caps :=
  let padded : Caps := caps ++ List.replicate (n - List.length caps) none
  padded.set (n - 1) (some (a, b))

/-- Look up the span of capture group `n`. -/
def capGet (n : Nat) (caps : Caps) : Option (Nat × Nat) :=
  List.getD caps (n - 1) none

/-- `\w`: Python's word character over ASCII text. -/
def isWordChar (c : Char) : Bool := c.isAlphanum || c == '_'

/-- Case-insensitive comparison of `s[a..a+n)` with `s[i..i+n)`, used for
backreference matching under `re.IGNORECASE`. -/
def spanEq (s : List Char) : Nat → Nat → Nat → Bool
  | 0, _, _ => true
  | n+1, a, i =>
    match s[a]?, s[i]? with
    | some c, some d => (c.toLower == d.toLower) && spanEq s n (a+1) (i+1)
    | _, _ => false

/-- All candidate match ends (with their capture state) for pattern `re`
at position `i` of `s`, in Python's backtracking priority order: left
alternative first, greedy quantifiers longest first, lazy star shortest
first.  `fuel` bounds the recursion depth. -/
def mAll : Nat → RE → List Char → Nat → Caps → List (Nat × Caps)
  | 0, _, _, _, _ => []
  | fuel+1, re, s, i, caps =>
    match re with
    | RE.eps => [(i, caps)]
    | RE.anyc => if i < s.length then [(i+1, caps)] else []
    | RE.lit c =>
      match s[i]? with
      | some d => if d.toLower == c.toLower then [(i+1, caps)] else []
      | none => []
    | RE.wsc =>
      match s[i]? with
      | some d => if d.isWhitespace then [(i+1, caps)] else []
      | none => []
    | RE.wordc =>
      match s[i]? with
      | some d => if isWordChar d then [(i+1, caps)] else []
      | none => []
    | RE.cat r1 r2 =>
      (mAll fuel r1 s i caps).flatMap fun jc => mAll fuel r2 s jc.1 jc.2
    | RE.alt r1 r2 => mAll fuel r1 s i caps ++ mAll fuel r2 s i caps
    | RE.opt r1 => mAll fuel r1 s i caps ++ [(i, caps)]
    | RE.starG r1 =>
      ((mAll fuel r1 s i caps).flatMap fun jc =>
        if i < jc.1 then mAll fuel (RE.starG r1) s jc.1 jc.2 else [jc]) ++ [(i, caps)]
    | RE.starL r1 =>
      (i, caps) :: (mAll fuel r1 s i caps).flatMap fun jc =>
        if i < jc.1 then mAll fuel (RE.starL r1) s jc.1 jc.2 else []
    | RE.group n r1 =>
      (mAll fuel r1 s i caps).map fun jc => (jc.1, setCap n i jc.1 jc.2)
    | RE.bref n =>
      match capGet n caps with
      | some ab =>
        if spanEq s (ab.2 - ab.1) ab.1 i then [(i + (ab.2 - ab.1), caps)] else []
      | none => []
    | RE.nla r1 => if (mAll fuel r1 s i caps).isEmpty then [(i, caps)] else []

/-- Depth budget for `mAll`: generous for the toolkit's fixed patterns. -/
def reFuel (s : List Char) : Nat := 3 * s.length + 400

/-- The characters `s[a..b)`. -/
def slice (s : List Char) (a b : Nat) : List Char := (s.drop a).take (b - a)

/-- `re.Pattern.finditer`: scan left to right, report each leftmost
non-overlapping match as `(start, end, captures)` and resume at its end
(or one further on for an empty match). -/
def findIterAux (p : RE) (s : List Char) : Nat → Nat → List (Nat × Nat × Caps)
  | 0, _ => []
  | fuel+1, i =>
    if s.length < i then []
    else
      match (mAll (reFuel s) p s i []).head? with
      | some jc =>
        (i, jc.1, jc.2) :: findIterAux p s fuel (if i < jc.1 then jc.1 else i+1)
      | none => findIterAux p s fuel (i+1)

/-- All matches of `p` in `s`, leftmost first. -/
def findIter (p : RE) (s : List Char) : List (Nat × Nat × Caps) :=
  findIterAux p s (s.length + 2) 0

/-- The text of the first match of `p` in `s`, when there is one:
`pattern.findall(content)[0]` for the toolkit's group-free patterns. -/
def firstMatchStr (p : RE) (s : List Char) : Option String :=
  (findIter p s).head?.map fun m => String.mk (slice s m.1 m.2.1)

/-- `re.search` as a Boolean: does `p` match anywhere in `s`? -/
def hasMatch (p : RE) (s : List Char) : Bool := !(findIter p s).isEmpty

/-- The text captured by group `n` of a match, `""` for an unset group. -/
def groupStr (s : List Char) (caps : Caps) (n : Nat) : String :=
  match capGet n caps with
  | some ab => String.mk (slice s ab.1 ab.2)
  | none => ""

/-- A case-insensitive literal word, one `lit` per character. -/
def strRE (s : String) : RE := s.data.foldr (fun c r => RE.cat (RE.lit c) r) RE.eps

/-- `(?:a|b|...)` with Python's left-first priority. -/
def altRE : List RE → RE
  | [] => RE.eps
  | [r] => r
  | r :: rs => RE.alt r (altRE rs)

/-- Concatenation of a pattern list. -/
def catRE (rs : List RE) : RE := rs.foldr RE.cat RE.eps

/-- `r+` (greedy): one occurrence then a greedy star. -/
def plusRE (r : RE) : RE := RE.cat r (RE.starG r)

/-- `\s+`. -/
def wsP : RE := plusRE RE.wsc

/-- `str.split()`: maximal runs of non-whitespace characters. -/
def wordsAux : List Char → List Char → List (List Char)
  | [], cur => if cur.isEmpty then [] else [cur.reverse]
  | c :: rest, cur =>
    if c.isWhitespace then
      if cur.isEmpty then wordsAux rest [] else cur.reverse :: wordsAux rest []
    else wordsAux rest (c :: cur)

/-- The whitespace-delimited words of `s`. -/
def pwords (s : List Char) : List (List Char) := wordsAux s []

/-- `len(content.split())`. -/
def wordCount (s : List Char) : Nat := (pwords s).length

/-! ## `classifier.py`: ExpectationBreakClassifier -/

/-- `ExpectationBreak` dataclass of `classifier.py`. -/
structure ExpectationBreak where
  break_type : String
  position : Nat
  content : String
  confidence : ℚ
  explanation : String
deriving DecidableEq

/-- Ordering by match position, the key of `breaks.sort`. -/
def byPosition (a b : ExpectationBreak) : Prop := a.position ≤ b.position

instance : DecidableRel byPosition := fun a b => Nat.decLe a.position b.position

instance : IsTotal ExpectationBreak byPosition :=
  ⟨fun a b => Nat.le_total a.position b.position⟩

instance : IsTrans ExpectationBreak byPosition :=
  ⟨fun _ _ _ h1 h2 => Nat.le_trans h1 h2⟩

/-- `SURPRISE_MARKERS` of `classifier.py`, in source order. -/
def surprise_markers : List RE :=
  [ catRE [strRE "because", wsP, RE.nla (strRE "of")],
    catRE [strRE "but", wsP, altRE [strRE "the", strRE "it", strRE "they"]],
    catRE [strRE "actually", wsP],
    catRE [strRE "instead", wsP],
    strRE "paradox",
    strRE "contradiction",
    catRE [strRE "however", wsP],
    catRE [strRE "yet", wsP],
    catRE [strRE "though", wsP],
    catRE [strRE "despite", wsP] ]

/-- `PARADOX_PATTERNS` of `classifier.py`, in source order. -/
def paradox_terms : List RE :=
  [ catRE [altRE [strRE "can", strRE "could", strRE "must", strRE "should"], wsP,
      altRE [strRE "and", strRE "but", strRE "yet"], wsP,
      altRE [strRE "cannot", strRE "couldn't", strRE "mustn't", strRE "shouldn't"]],
    catRE [altRE [strRE "true", strRE "real", strRE "false", strRE "fake"], wsP,
      altRE [strRE "and", strRE "but", strRE "yet"], wsP,
      altRE [strRE "false", strRE "fake", strRE "true", strRE "real"]],
    catRE [altRE [strRE "yes", strRE "no"], wsP,
      altRE [strRE "and", strRE "but", strRE "yet"], wsP,
      altRE [strRE "no", strRE "yes"]] ]

/-- The inline pattern of `_detect_reversals`:
`(\w+)\s+(?:is|was)\s+(\w+).*?(\2)\s+(?:is|was)\s+(\1)`. -/
def reversal_term : RE :=
  catRE [RE.group 1 (plusRE RE.wordc), wsP, altRE [strRE "is", strRE "was"], wsP,
    RE.group 2 (plusRE RE.wordc), RE.starL RE.anyc,
    RE.group 3 (RE.bref 2), wsP, altRE [strRE "is", strRE "was"], wsP,
    RE.group 4 (RE.bref 1)]

/-- The inline pattern of `_detect_contrasts`:
`(?:expected|assumed|thought|believed).*?(?:but|however|yet|instead).*?(?:actually|really|truly)`. -/
def contrast_term : RE :=
  catRE [altRE [strRE "expected", strRE "assumed", strRE "thought", strRE "believed"],
    RE.starL RE.anyc,
    altRE [strRE "but", strRE "however", strRE "yet", strRE "instead"],
    RE.starL RE.anyc,
    altRE [strRE "actually", strRE "really", strRE "truly"]]

/-- The surprise-marker loop of `detect_breaks`. -/
def surpriseBreaks (content : List Char) : List ExpectationBreak :=
  surprise_markers.flatMap fun p =>
    (findIter p content).map fun m =>
      { break_type := "surprise_marker", position := m.1,
        content := String.mk (slice content m.1 m.2.1), confidence := 0.7,
        explanation := "Semantic surprise at: " ++ String.mk (slice content m.1 m.2.1) }

/-- The paradox loop of `detect_breaks`. -/
def paradoxBreaks (content : List Char) : List ExpectationBreak :=
  paradox_terms.flatMap fun p =>
    (findIter p content).map fun m =>
      { break_type := "paradox", position := m.1,
        content := String.mk (slice content m.1 m.2.1), confidence := 0.9,
        explanation := "Paradox detected: " ++ String.mk (slice content m.1 m.2.1) }

/-- `_detect_reversals` of `classifier.py`. -/
def reversalBreaks (content : List Char) : List ExpectationBreak :=
  (findIter reversal_term content).map fun m =>
    { break_type := "reversal", position := m.1,
      content := String.mk (slice content m.1 m.2.1), confidence := 0.85,
      explanation := "Reversal: " ++ groupStr content m.2.2 1 ++ " â†” "
        ++ groupStr content m.2.2 2 }

/-- `_detect_contrasts` of `classifier.py`. -/
def contrastBreaks (content : List Char) : List ExpectationBreak :=
  (findIter contrast_term content).map fun m =>
    { break_type := "contrast", position := m.1,
      content := String.mk (slice content m.1 m.2.1), confidence := 0.8,
      explanation := "Expectation contrast: "
        ++ String.mk ((slice content m.1 m.2.1).take 50) ++ "..." }

/-- `ExpectationBreakClassifier.detect_breaks`: the four scans concatenated
in source order, then `breaks.sort(key=lambda b: b.position)` — a stable
ascending sort by position. -/
def detect_breaks (content : List Char) : List ExpectationBreak :=
  List.insertionSort byPosition
    (surpriseBreaks content ++ paradoxBreaks content
      ++ reversalBreaks content ++ contrastBreaks content)

/-- `ExpectationBreakClassifier.calculate_surprise_density`. -/
def calculate_surprise_density (content : List Char) : ℚ :=
  let breaks := detect_breaks content
  if breaks.isEmpty then 0
  else min 1 (((breaks.length : ℚ) / (wordCount content : ℚ)) * 10)

/-- `ExpectationBreakClassifier.classify_content_type`. -/
def classify_content_type (content : List Char) : String :=
  let breaks := detect_breaks content
  if breaks.isEmpty then "straightforward"
  else if breaks.any (fun b => b.break_type == "paradox") then "paradox"
  else if breaks.any (fun b => b.break_type == "reversal") then "reversal"
  else if (breaks.filter (fun b => b.break_type == "surprise_marker")).length > 2 then "joke"
  else if breaks.any (fun b => b.break_type == "contrast") then "contrast_narrative"
  else "semantic_surprise"

/-! ## `validator.py`: TIMValidator -/

/-- `COERCION_TERMS` of `validator.py`, in source order. -/
def coercion_terms : List RE :=
  [ catRE [strRE "must", wsP,
      altRE [strRE "believe", strRE "accept", strRE "agree", strRE "understand"]],
    catRE [strRE "you", wsP, RE.opt (catRE [strRE "have", wsP]), strRE "to", wsP,
      altRE [strRE "believe", strRE "accept", strRE "agree"]],
    altRE [strRE "obviously", strRE "clearly", strRE "obviously", strRE "undeniably"],
    catRE [RE.opt (catRE [strRE "no", wsP]),
      altRE [strRE "one", strRE "person", catRE [strRE "reasonable", wsP, strRE "person"]],
      wsP, altRE [strRE "can", strRE "could", strRE "would"], wsP,
      altRE [strRE "disagree", strRE "argue"]],
    catRE [RE.opt (catRE [strRE "if", wsP]), strRE "you", wsP,
      altRE [strRE "don't", strRE "can't"], wsP,
      altRE [strRE "see", strRE "understand", strRE "agree"]],
    catRE [altRE [strRE "only", strRE "just", strRE "simply"], wsP,
      altRE [strRE "believe", strRE "accept", strRE "understand"]],
    altRE [catRE [strRE "everyone", wsP, strRE "knows"],
      catRE [strRE "it's", wsP, strRE "common", wsP, strRE "knowledge"]],
    catRE [RE.opt (catRE [strRE "you", wsP,
        altRE [strRE "must", catRE [strRE "have", wsP, strRE "to"]], wsP]),
      altRE [strRE "admit", strRE "confess", strRE "acknowledge"]] ]

/-- `EMOTIONAL_MANIPULATION_TERMS` of `validator.py`, in source order. -/
def emotional_terms : List RE :=
  [ catRE [RE.opt (catRE [strRE "you", wsP]), RE.opt (catRE [strRE "should", wsP]),
      altRE [strRE "feel", strRE "be"], wsP,
      altRE [strRE "ashamed", strRE "guilty", strRE "afraid", strRE "scared"]],
    catRE [RE.opt (catRE [strRE "if", wsP]), strRE "you", wsP,
      altRE [strRE "really", strRE "truly", strRE "genuinely"], wsP,
      altRE [strRE "care", strRE "love"]],
    catRE [altRE [strRE "only", strRE "real", strRE "true"], wsP,
      altRE [strRE "believers", strRE "followers", strRE "supporters"]],
    catRE [RE.opt (catRE [strRE "you", wsP]), altRE [strRE "can't", strRE "won't"], wsP,
      RE.opt (catRE [strRE "help", wsP]), altRE [strRE "but", strRE "except"]],
    catRE [strRE "everyone", wsP,
      altRE [strRE "else", catRE [strRE "around", wsP, strRE "you"]], wsP,
      altRE [strRE "knows", strRE "believes", strRE "agrees"]] ]

/-- `PRESSURE_TERMS` of `validator.py`, in source order. -/
def pressure_terms : List RE :=
  [ catRE [altRE [strRE "act", strRE "decide", strRE "choose"], wsP,
      altRE [strRE "now", strRE "immediately", strRE "today"]],
    catRE [altRE [strRE "limited", strRE "only", strRE "exclusive"], wsP,
      altRE [strRE "time", strRE "offer", strRE "opportunity"]],
    catRE [altRE [strRE "don't", strRE "can't"], wsP,
      altRE [strRE "wait", strRE "delay", strRE "hesitate"]],
    catRE [altRE [strRE "before", strRE "unless"], wsP,
      RE.opt (catRE [strRE "it's", wsP]), strRE "too", wsP, strRE "late"],
    altRE [strRE "hurry", strRE "rush", catRE [strRE "act", wsP, strRE "fast"]] ]

/-- `AUTHORITY_TERMS` of `validator.py`, in source order. -/
def authority_terms : List RE :=
  [ catRE [altRE [strRE "I", strRE "we"], wsP,
      altRE [strRE "know", strRE "understand", catRE [strRE "have", wsP, strRE "discovered"]],
      wsP, RE.opt (catRE [strRE "the", wsP]), strRE "truth"],
    catRE [altRE [strRE "expert", strRE "authority", strRE "specialist"], wsP,
      altRE [strRE "says", strRE "claims", strRE "believes"]],
    catRE [altRE [strRE "scientific", strRE "proven", strRE "verified"], wsP,
      altRE [strRE "fact", strRE "truth"]],
    altRE [catRE [strRE "according", wsP, strRE "to"],
      catRE [strRE "research", wsP, strRE "shows"],
      catRE [strRE "studies", wsP, strRE "prove"]] ]

/-- The contradiction pattern of `_check_coherence`:
`(?:true|real|correct).*?(?:false|fake|wrong)` with DOTALL. -/
def contradiction_term : RE :=
  catRE [altRE [strRE "true", strRE "real", strRE "correct"], RE.starL RE.anyc,
    altRE [strRE "false", strRE "fake", strRE "wrong"]]

/-- The invitational patterns of `calculate_invitation_score`, in source order. -/
def invitational_terms : List RE :=
  [ catRE [RE.opt (catRE [strRE "you", wsP]), altRE [strRE "might", strRE "could", strRE "may"],
      wsP, altRE [strRE "consider", strRE "explore", strRE "think"]],
    catRE [RE.opt (catRE [strRE "one", wsP]),
      altRE [strRE "way", strRE "perspective", strRE "approach"]],
    altRE [strRE "perhaps", strRE "maybe", strRE "possibly"],
    catRE [RE.opt (catRE [strRE "if", wsP]), RE.opt (catRE [strRE "you", wsP]),
      altRE [strRE "choose", strRE "prefer", strRE "decide"]],
    altRE [strRE "worth", strRE "interesting", catRE [strRE "worth", wsP, strRE "exploring"]] ]

/-- The shared shape of the four `_check_*` scans: walk the family's
patterns in order and, for each pattern with a match, append one violation
naming the category and the first matched fragment. -/
def checkFamily (label : String) (pats : List RE) (content : List Char) : List String :=
  pats.foldl (fun acc p =>
    match firstMatchStr p content with
    | some m => acc ++ [label ++ m]
    | none => acc) []

/-- `TIMValidator._check_coercion`. -/
def check_coercion (content : List Char) : List String :=
  checkFamily "Coercive language detected: " coercion_terms content

/-- `TIMValidator._check_emotional_manipulation`. -/
def check_emotional_manipulation (content : List Char) : List String :=
  checkFamily "Emotional manipulation detected: " emotional_terms content

/-- `TIMValidator._check_pressure`. -/
def check_pressure (content : List Char) : List String :=
  checkFamily "Pressure/urgency tactic detected: " pressure_terms content

/-- `TIMValidator._check_authority_claims`. -/
def check_authority_claims (content : List Char) : List String :=
  checkFamily "Authority claim detected: " authority_terms content

/-- `TIMValidator._check_coherence`: the contradiction search, then the
dangling-conjunction suffix test. -/
def check_coherence (content : List Char) : List String :=
  (if hasMatch contradiction_term content then ["Potential contradiction detected"] else [])
    ++ (if ["but", "however", "yet", "because"].any
          (fun w => List.isSuffixOf w.data content)
        then ["Incomplete thought at end of content"] else [])

/-- The recognized switches of the `constraints` dict; an absent key makes
`constraints.get(key, True)` fall back to `True`. -/
structure Constraints where
  non_coercion : Option Bool
  coherence : Option Bool

/-- The violation list built by `TIMValidator.validate`: a `None`
constraints argument becomes the one-key dict with `non_coercion` set,
and each enabled family extends the list in source order. -/
def violationsOf (content : List Char) (constraints : Option Constraints) : List String :=
  let cs := constraints.getD { non_coercion := some true, coherence := none }
  let v1 : List String :=
    if cs.non_coercion.getD true then
      check_coercion content ++ check_emotional_manipulation content
        ++ check_pressure content ++ check_authority_claims content
    else []
  if cs.coherence.getD true then v1 ++ check_coherence content else v1

/-- `TIMValidator.validate`: `(len(violations) == 0, violations)`. -/
def validate (content : List Char) (constraints : Option Constraints) : Bool × List String :=
  ((violationsOf content constraints).isEmpty, violationsOf content constraints)

/-- The four reframing tips of `suggest_reframe`, appended per violation in
the source's test order. -/
def tips_for (violation : String) : List String :=
  let has := fun (marker : String) =>
    (List.range (violation.data.length + 1)).any fun i =>
      List.isPrefixOf marker.data (violation.data.drop i)
  (if has "Coercive language" then
    ["Reframe as invitation: 'You might consider...' instead of 'You must...'"] else [])
  ++ (if has "Emotional manipulation" then
    ["Appeal to understanding, not emotion: 'This perspective shows...' instead of 'You should feel...'"] else [])
  ++ (if has "Pressure/urgency" then
    ["Remove time pressure: 'This is worth considering' instead of 'Act now'"] else [])
  ++ (if has "Authority claim" then
    ["Share perspective humbly: 'One way to see this...' instead of 'The truth is...'"] else [])

/-- `TIMValidator.suggest_reframe`. -/
def suggest_reframe (content : List Char) : Option String :=
  if (validate content none).1 then none
  else
    let suggestions := (validate content none).2.flatMap tips_for
    if suggestions.isEmpty then none
    else some (String.intercalate " " suggestions)

/-- `TIMValidator.calculate_coercion_score`. -/
def calculate_coercion_score (content : List Char) : ℚ :=
  let r := validate content none
  if r.1 then 0
  else min 1 (((r.2.length : ℚ) / (max (wordCount content) 1 : ℚ)) * 100)

/-- `TIMValidator.calculate_invitation_score`. -/
def calculate_invitation_score (content : List Char) : ℚ :=
  let coercion_score := calculate_coercion_score content
  let invitational_count :=
    invitational_terms.foldl (fun acc p => acc + (findIter p content).length) 0
  let invitational_density :=
    ((invitational_count : ℚ) / (max (wordCount content) 1 : ℚ)) * 100
  min 1 ((1 - coercion_score) * (1 + min 0.5 (invitational_density / 100)))

/-! ## Auxiliary definitions for the verification -/

/-- A pattern every match of which must consume at least one
non-whitespace character (used to rule out matches in all-whitespace
text, hence a zero word count alongside a detected break). -/
def inkRequired : RE → Bool
  | RE.lit c => !(c.toLower.isWhitespace)
  | RE.wordc => true
  | RE.cat r1 r2 => inkRequired r1 || inkRequired r2
  | RE.alt r1 r2 => inkRequired r1 && inkRequired r2
  | RE.group _ r1 => inkRequired r1
  | _ => false

/-- Is the `non_coercion` rule family enabled for this constraints value? -/
def nonCoercionEnabled (constraints : Option Constraints) : Bool :=
  (constraints.getD { non_coercion := some true, coherence := none }).non_coercion.getD true

/-- Is the `coherence` rule family enabled for this constraints value? -/
def coherenceEnabled (constraints : Option Constraints) : Bool :=
  (constraints.getD { non_coercion := some true, coherence := none }).coherence.getD true

/-- The scenario text of the specification's §8 break-detection test. -/
def c7_text : List Char := "I expected it to fail, but it actually succeeded".data

/-- A text whose two violations both belong to the coercive-language
category (patterns 1 and 3 of `COERCION_TERMS` both fire). -/
def c5_text : List Char := "You must believe this obviously".data

/-- A report whose diagnostics sequence lists `CompressionRatioLow` before
`Decoherence`; the fixed lookup table orders them the other way round. -/
def c6_report : DiagnosticReport :=
  { status := Status.unstable
    diagnostics := [Diagnostic.compressionRatioLow, Diagnostic.decoherence]
    compression_ratio := 0.3
    coherence_score := 0.5
    breaks_detected := 0
    coercion_detected := false
    metadata := [] }

/-! ## Lemmas about the report builder -/

/-- `determine_status` answers `Failed` exactly on the presence of
`CoercionDetected`. -/
theorem determine_status_failed_iff (l : List Diagnostic) :
    determine_status l = Status.failed ↔ Diagnostic.coercionDetected ∈ l := by
  unfold determine_status
  split_ifs <;> simp_all

/-- `CoercionDetected` enters a built report exactly on the
`coercion_detected` input. -/
theorem coercion_mem_build_report (r c : ℚ) (b : Nat) (coer ss : Bool)
    (md : Option Metadata) :
    Diagnostic.coercionDetected ∈ (build_report r c b coer ss md).diagnostics ↔
      coer = true := by
  simp only [build_report, validate_compression_ratio, validate_coherence_score]
  split_ifs <;> simp_all

/-- C1: for every report returned by `build_report`, the status is `Failed`
if and only if `CoercionDetected` is among its diagnostics; and with
`coercion_detected = true` the status is `Failed` whatever the other
inputs. -/
theorem c1_failed_iff_coercion (r c : ℚ) (b : Nat) (coer ss : Bool)
    (md : Option Metadata) :
    ((build_report r c b coer ss md).status = Status.failed ↔
      Diagnostic.coercionDetected ∈ (build_report r c b coer ss md).diagnostics)
    ∧ (build_report r c b true ss md).status = Status.failed := by
  have hstat : ∀ (coer' : Bool),
      (build_report r c b coer' ss md).status
        = determine_status (build_report r c b coer' ss md).diagnostics := by
    intro coer'
    simp only [build_report]
  constructor
  · rw [hstat coer, determine_status_failed_iff]
  · rw [hstat true, determine_status_failed_iff]
    exact (coercion_mem_build_report r c b true ss md).mpr rfl

/-- C2: `determine_status` applies the strict priority
CoercionDetected ⇒ Failed, else Decoherence ⇒ Unstable, else
CoherenceVerified ⇒ Success, else non-empty ⇒ Unstable, else Success. -/
theorem c2_determine_status_priority (l : List Diagnostic) :
    determine_status l =
      if Diagnostic.coercionDetected ∈ l then Status.failed
      else if Diagnostic.decoherence ∈ l then Status.unstable
      else if Diagnostic.coherenceVerified ∈ l then Status.success
      else if l = [] then Status.success
      else Status.unstable := by
  unfold determine_status
  split_ifs <;> simp_all [List.length_pos]

set_option maxHeartbeats 1000000 in
/-- C3: threshold flags of `build_report`: `CompressionRatioLow` exactly
when `compression_ratio < 0.5`, `CompressionRatioHigh` exactly when
`compression_ratio > 2.0`, `Decoherence` exactly when
`coherence_score < 0.6`, `CoherenceVerified` exactly when
`coherence_score >= 0.8`; and the spec's concrete scenario
`(1.0, 0.9, 1, False)` yields `CoherenceVerified`, `ExpectationBreak`
and status `Success`. -/
theorem c3_threshold_flags :
    (∀ (r c : ℚ) (b : Nat) (coer ss : Bool) (md : Option Metadata),
      (Diagnostic.compressionRatioLow ∈ (build_report r c b coer ss md).diagnostics ↔ r < 0.5)
      ∧ (Diagnostic.compressionRatioHigh ∈ (build_report r c b coer ss md).diagnostics ↔ r > 2.0)
      ∧ (Diagnostic.decoherence ∈ (build_report r c b coer ss md).diagnostics ↔ c < 0.6)
      ∧ (Diagnostic.coherenceVerified ∈ (build_report r c b coer ss md).diagnostics ↔ c ≥ 0.8))
    ∧ Diagnostic.coherenceVerified ∈ (build_report 1.0 0.9 1 false false none).diagnostics
    ∧ Diagnostic.expectationBreak ∈ (build_report 1.0 0.9 1 false false none).diagnostics
    ∧ (build_report 1.0 0.9 1 false false none).status = Status.success := by
  have h1 : validate_compression_ratio 1.0 = none := by
    unfold validate_compression_ratio
    rw [if_neg (by norm_num), if_neg (by norm_num)]
  have h2 : validate_coherence_score 0.9 = some Diagnostic.coherenceVerified := by
    unfold validate_coherence_score
    rw [if_neg (by norm_num), if_pos (by norm_num)]
  refine ⟨?_, ?_, ?_, ?_⟩
  · intro r c b coer ss md
    simp only [build_report, validate_compression_ratio, validate_coherence_score]
    split_ifs <;> simp_all <;> (try constructor) <;>
      linarith [(by norm_num : (0.6:ℚ) < 0.8), (by norm_num : (0.5:ℚ) < 2.0)]
  · simp [build_report, h1, h2]
  · simp [build_report, h1, h2]
  · simp [build_report, h1, h2, determine_status]

/-- C10: every diagnostics list built by `build_report` has no duplicate
flags, at most 5 entries, draws only from the seven flags the builder can
append, and never holds `UnderCompression`, `NarrativeFlowBroken` or
`BoundaryInsightWeak`. -/
theorem c10_diagnostics_shape (r c : ℚ) (b : Nat) (coer ss : Bool)
    (md : Option Metadata) :
    (build_report r c b coer ss md).diagnostics.Nodup
    ∧ (build_report r c b coer ss md).diagnostics.length ≤ 5
    ∧ (build_report r c b coer ss md).diagnostics.all
        (fun d => ([Diagnostic.compressionRatioLow, Diagnostic.compressionRatioHigh,
          Diagnostic.decoherence, Diagnostic.coherenceVerified,
          Diagnostic.coercionDetected, Diagnostic.expectationBreak,
          Diagnostic.semanticSurprise] : List Diagnostic).contains d) = true
    ∧ (build_report r c b coer ss md).diagnostics.contains Diagnostic.underCompression = false
    ∧ (build_report r c b coer ss md).diagnostics.contains Diagnostic.narrativeFlowBroken = false
    ∧ (build_report r c b coer ss md).diagnostics.contains Diagnostic.boundaryInsightWeak = false := by
  simp only [build_report, validate_compression_ratio, validate_coherence_score]
  split_ifs <;> refine ⟨?_, ?_, ?_, ?_, ?_, ?_⟩ <;> decide

/-- C6 counterexample: in `c6_report` the first diagnostic of the report's
sequence that the lookup table covers is `CompressionRatioLow`, yet
`suggest_refinement` answers the `Decoherence` suggestion, because the
source tests the table's keys in table order, not in sequence order. -/
theorem c6_counterexample :
    suggest_refinement c6_report
        = some "Refocus the narrative; the core insight is getting lost."
    ∧ c6_report.diagnostics.find?
        (fun d => (refinement_table.find? (fun e => e.1 == d)).isSome)
        = some Diagnostic.compressionRatioLow
    ∧ (refinement_table.find? (fun e => e.1 == Diagnostic.compressionRatioLow)).map Prod.snd
        ≠ some "Refocus the narrative; the core insight is getting lost." := by
  refine ⟨?_, ?_, ?_⟩ <;> decide

/-- C6 amended: `suggest_refinement` returns the suggestion of the first
entry of the fixed table (ordered UnderCompression, Decoherence,
CoercionDetected, CompressionRatioLow, CompressionRatioHigh,
BoundaryInsightWeak) whose diagnostic is present anywhere in the report's
diagnostics, and nothing when no diagnostic of the report is in the
table. -/
theorem c6_amended (report : DiagnosticReport) :
    suggest_refinement report
      = (refinement_table.find? (fun e => report.diagnostics.contains e.1)).map Prod.snd := by
  unfold suggest_refinement refinement_table
  split_ifs <;> simp_all [List.find?, List.elem_iff]

/-! ## Lemmas about the validator -/

/-- The per-family scan loop appends, for each pattern of the family in
order, at most one violation: the category label followed by the first
matched fragment. -/
theorem checkFamily_eq_filterMap (label : String) (pats : List RE) (content : List Char) :
    checkFamily label pats content
      = pats.filterMap (fun p => (firstMatchStr p content).map (fun m => label ++ m)) := by
  have aux : ∀ (ps : List RE) (acc : List String),
      ps.foldl (fun acc p => match firstMatchStr p content with
        | some m => acc ++ [label ++ m] | none => acc) acc
      = acc ++ ps.filterMap (fun p => (firstMatchStr p content).map (fun m => label ++ m)) := by
    intro ps
    induction ps with
    | nil => intro acc; simp
    | cons p ps ih =>
      intro acc
      cases h : firstMatchStr p content with
      | none => simp [List.foldl_cons, h, ih, List.filterMap_cons]
      | some m => simp [List.foldl_cons, h, ih, List.filterMap_cons]
  simpa [checkFamily] using aux pats []

/-- C4: with `non_coercion` enabled, the violation list is the coercion,
emotional-manipulation, pressure and authority scans in that fixed order
(followed by the coherence checks when enabled); each scan contributes,
per pattern of its family, at most one violation naming the category and
the first matched fragment; and `is_valid` holds exactly when the
violation list is empty. -/
theorem c4_scan_structure (content : List Char) (constraints : Option Constraints)
    (h : nonCoercionEnabled constraints = true) :
    (validate content constraints).2
      = check_coercion content ++ (check_emotional_manipulation content
        ++ (check_pressure content ++ (check_authority_claims content
        ++ (if coherenceEnabled constraints then check_coherence content else []))))
    ∧ ((validate content constraints).1 = true ↔ (validate content constraints).2 = [])
    ∧ check_coercion content = coercion_terms.filterMap
        (fun p => (firstMatchStr p content).map (fun m => "Coercive language detected: " ++ m))
    ∧ check_emotional_manipulation content = emotional_terms.filterMap
        (fun p => (firstMatchStr p content).map (fun m => "Emotional manipulation detected: " ++ m))
    ∧ check_pressure content = pressure_terms.filterMap
        (fun p => (firstMatchStr p content).map (fun m => "Pressure/urgency tactic detected: " ++ m))
    ∧ check_authority_claims content = authority_terms.filterMap
        (fun p => (firstMatchStr p content).map (fun m => "Authority claim detected: " ++ m)) := by
  refine ⟨?_, ?_, ?_, ?_, ?_, ?_⟩
  · unfold nonCoercionEnabled at h
    unfold coherenceEnabled
    simp only [validate, violationsOf, h, if_true]
    by_cases hc : (constraints.getD
        { non_coercion := some true, coherence := none }).coherence.getD true = true
    · simp [hc, List.append_assoc]
    · simp only [Bool.not_eq_true] at hc
      simp [hc, List.append_assoc]
  · have hv : (validate content constraints).1
        = (validate content constraints).2.isEmpty := by
      simp [validate]
    rw [hv, List.isEmpty_iff]
  · simpa [check_coercion] using
      checkFamily_eq_filterMap "Coercive language detected: " coercion_terms content
  · simpa [check_emotional_manipulation] using
      checkFamily_eq_filterMap "Emotional manipulation detected: " emotional_terms content
  · simpa [check_pressure] using
      checkFamily_eq_filterMap "Pressure/urgency tactic detected: " pressure_terms content
  · simpa [check_authority_claims] using
      checkFamily_eq_filterMap "Authority claim detected: " authority_terms content

/-- Witness for C4 at `content = "ok"`, default constraints. -/
theorem c4_scan_structure_witness :
    nonCoercionEnabled none = true
    ∧ ((validate "ok".data none).2
      = check_coercion "ok".data ++ (check_emotional_manipulation "ok".data
        ++ (check_pressure "ok".data ++ (check_authority_claims "ok".data
        ++ (if coherenceEnabled none then check_coherence "ok".data else []))))
    ∧ ((validate "ok".data none).1 = true ↔ (validate "ok".data none).2 = [])
    ∧ check_coercion "ok".data = coercion_terms.filterMap
        (fun p => (firstMatchStr p "ok".data).map (fun m => "Coercive language detected: " ++ m))
    ∧ check_emotional_manipulation "ok".data = emotional_terms.filterMap
        (fun p => (firstMatchStr p "ok".data).map (fun m => "Emotional manipulation detected: " ++ m))
    ∧ check_pressure "ok".data = pressure_terms.filterMap
        (fun p => (firstMatchStr p "ok".data).map (fun m => "Pressure/urgency tactic detected: " ++ m))
    ∧ check_authority_claims "ok".data = authority_terms.filterMap
        (fun p => (firstMatchStr p "ok".data).map (fun m => "Authority claim detected: " ++ m))) :=
  ⟨by decide, c4_scan_structure "ok".data none (by decide)⟩

set_option maxHeartbeats 4000000 in
/-- C5 counterexample: on `c5_text` both violations belong to the single
coercive-language category, yet `suggest_reframe` emits the coercive tip
twice (one copy per violation), not once per distinct category. -/
theorem c5_counterexample :
    (validate c5_text none).2
      = ["Coercive language detected: must believe", "Coercive language detected: obviously"]
    ∧ suggest_reframe c5_text
      = some "Reframe as invitation: 'You might consider...' instead of 'You must...' Reframe as invitation: 'You might consider...' instead of 'You must...'"
    ∧ suggest_reframe c5_text
      ≠ some "Reframe as invitation: 'You might consider...' instead of 'You must...'" := by
  refine ⟨?_, ?_, ?_⟩ <;> decide

/-- C5 amended: `suggest_reframe` returns nothing exactly when the
concatenation, over the violation list in order, of one tip per contained
category marker is empty (so for every valid text, but also for invalid
texts whose violations are all outside the four categories); otherwise it
returns that concatenation space-joined, with a category's tip repeated
once per violation of that category. -/
theorem c5_amended (content : List Char) :
    suggest_reframe content
      = (if ((validate content none).2.flatMap tips_for).isEmpty then none
         else some (String.intercalate " " ((validate content none).2.flatMap tips_for))) := by
  unfold suggest_reframe
  simp only [validate]
  cases hl : violationsOf content none with
  | nil => rfl
  | cons a l => rfl

/-! ## Lemmas about the classifier -/

/-- C7: on the spec's scenario text, `detect_breaks` reports at least one
contrast break and at least one surprise-marker break, and
`classify_content_type` does not answer `straightforward`. -/
theorem c7_scenario_breaks :
    (detect_breaks c7_text).any (fun b => b.break_type == "contrast") = true
    ∧ (detect_breaks c7_text).any (fun b => b.break_type == "surprise_marker") = true
    ∧ classify_content_type c7_text ≠ "straightforward" := by
  refine ⟨?_, ?_, ?_⟩ <;> decide

/-- C8: `detect_breaks` output is sorted by ascending position, and the
operation is a pure function, so repeated calls on identical input return
identical sequences. -/
theorem c8_sorted_and_deterministic (content : List Char) :
    List.Sorted byPosition (detect_breaks content)
    ∧ detect_breaks content = detect_breaks content := by
  refine ⟨?_, rfl⟩
  unfold detect_breaks
  exact List.sorted_insertionSort byPosition _

/-! ## No division by zero in the density and score calculations

`calculate_coercion_score` and `calculate_invitation_score` divide by
`max(word_count, 1)`, positive outright.  `calculate_surprise_density`
divides by the raw `word_count`, but only after `detect_breaks` returned a
non-empty list, and every pattern of the classifier requires a
non-whitespace character, so a detected break forces at least one word. -/

/-- A whitespace character is one of the four characters of
`Char.isWhitespace`. -/
theorem ws_cases {d : Char} (h : d.isWhitespace = true) :
    d = ' ' ∨ d = '\t' ∨ d = '\r' ∨ d = '\n' := by
  simp only [Char.isWhitespace, Bool.or_eq_true, decide_eq_true_eq] at h
  tauto

/-- Lowercasing fixes whitespace characters. -/
theorem ws_toLower {d : Char} (h : d.isWhitespace = true) : d.toLower = d := by
  rcases ws_cases h with h | h | h | h <;> subst h <;> decide

/-- A whitespace character is not a word character. -/
theorem ws_not_word {d : Char} (h : d.isWhitespace = true) : isWordChar d = false := by
  rcases ws_cases h with h | h | h | h <;> subst h <;> decide

/-- An ink-requiring pattern has no match in all-whitespace text. -/
theorem mAll_allWhitespace (fuel : Nat) :
    ∀ (r : RE) (s : List Char) (i : Nat) (caps : Caps),
      inkRequired r = true → (∀ c ∈ s, c.isWhitespace = true) →
      mAll fuel r s i caps = [] := by
  induction fuel with
  | zero => intro r s i caps _ _; rfl
  | succ fuel ih =>
    intro r s i caps hink hws
    cases r with
    | eps => simp [inkRequired] at hink
    | anyc => simp [inkRequired] at hink
    | lit c =>
      simp only [mAll]
      cases hget : s[i]? with
      | none => rfl
      | some d =>
        have hd : d.isWhitespace = true := hws d (List.getElem?_mem hget)
        have hne : (d.toLower == c.toLower) = false := by
          rw [ws_toLower hd]
          by_contra hcon
          simp only [Bool.not_eq_false, beq_iff_eq] at hcon
          rw [hcon] at hd
          simp [inkRequired, hd] at hink
        simp [hne]
    | wsc => simp [inkRequired] at hink
    | wordc =>
      simp only [mAll]
      cases hget : s[i]? with
      | none => rfl
      | some d =>
        have hd : d.isWhitespace = true := hws d (List.getElem?_mem hget)
        simp [ws_not_word hd]
    | cat r1 r2 =>
      simp only [mAll]
      simp only [inkRequired, Bool.or_eq_true] at hink
      rcases hink with h1 | h2
      · rw [ih r1 s i caps h1 hws]
        rfl
      · have hall : ∀ (l : List (Nat × Caps)),
            (l.flatMap fun jc => mAll fuel r2 s jc.1 jc.2) = [] := by
          intro l
          induction l with
          | nil => rfl
          | cons x xs ihl => simp [ih r2 s x.1 x.2 h2 hws, ihl]
        exact hall _
    | alt r1 r2 =>
      simp only [inkRequired, Bool.and_eq_true] at hink
      simp only [mAll]
      rw [ih r1 s i caps hink.1 hws, ih r2 s i caps hink.2 hws]
      rfl
    | opt r1 => simp [inkRequired] at hink
    | starG r1 => simp [inkRequired] at hink
    | starL r1 => simp [inkRequired] at hink
    | group n r1 =>
      simp only [mAll]
      rw [ih r1 s i caps (by simpa [inkRequired] using hink) hws]
      rfl
    | bref n => simp [inkRequired] at hink
    | nla r1 => simp [inkRequired] at hink

/-- The scan loop finds nothing in all-whitespace text. -/
theorem findIterAux_allWhitespace (p : RE) (s : List Char)
    (hink : inkRequired p = true) (hws : ∀ c ∈ s, c.isWhitespace = true) :
    ∀ (fuel i : Nat), findIterAux p s fuel i = [] := by
  intro fuel
  induction fuel with
  | zero => intro i; rfl
  | succ fuel ih =>
    intro i
    simp only [findIterAux]
    rw [mAll_allWhitespace (reFuel s) p s i [] hink hws]
    simp [ih]

/-- `finditer` finds nothing in all-whitespace text. -/
theorem findIter_allWhitespace (p : RE) (s : List Char)
    (hink : inkRequired p = true) (hws : ∀ c ∈ s, c.isWhitespace = true) :
    findIter p s = [] :=
  findIterAux_allWhitespace p s hink hws _ _

/-- A break-family loop over ink-requiring patterns contributes nothing on
all-whitespace text. -/
theorem flatMapBreaks_allWhitespace (content : List Char)
    (hws : ∀ c ∈ content, c.isWhitespace = true)
    (pats : List RE) (hall : pats.all inkRequired = true)
    (g : Nat × Nat × Caps → ExpectationBreak) :
    (pats.flatMap fun p => (findIter p content).map g) = [] := by
  induction pats with
  | nil => rfl
  | cons p ps ih =>
    rw [List.all_cons, Bool.and_eq_true] at hall
    simp [findIter_allWhitespace p content hall.1 hws, ih hall.2]

/-- `detect_breaks` returns nothing on all-whitespace text: each of its
fifteen patterns requires a non-whitespace character. -/
theorem detect_breaks_allWhitespace (content : List Char)
    (hws : ∀ c ∈ content, c.isWhitespace = true) :
    detect_breaks content = [] := by
  unfold detect_breaks surpriseBreaks paradoxBreaks reversalBreaks contrastBreaks
  rw [flatMapBreaks_allWhitespace content hws surprise_markers (by decide),
    flatMapBreaks_allWhitespace content hws paradox_terms (by decide),
    findIter_allWhitespace reversal_term content (by decide) hws,
    findIter_allWhitespace contrast_term content (by decide) hws]
  simp [List.insertionSort]

/-- The word splitter can only end with an empty list when its
accumulator is empty. -/
theorem wordsAux_eq_nil_cur (s : List Char) :
    ∀ cur, wordsAux s cur = [] → cur = [] := by
  induction s with
  | nil =>
    intro cur h
    unfold wordsAux at h
    by_cases he : cur.isEmpty
    · exact List.isEmpty_iff.mp he
    · simp only [he, Bool.false_eq_true, if_false] at h
      cases h
  | cons a rest ih =>
    intro cur h
    unfold wordsAux at h
    by_cases hw : a.isWhitespace
    · simp only [hw, if_true] at h
      by_cases he : cur.isEmpty
      · exact List.isEmpty_iff.mp he
      · simp only [he, Bool.false_eq_true, if_false] at h
        cases h
    · simp only [hw, Bool.false_eq_true, if_false] at h
      have := ih (a :: cur) h
      cases this

/-- Text with no words is all whitespace. -/
theorem wordsAux_eq_nil_ws (s : List Char) :
    ∀ cur, wordsAux s cur = [] → ∀ c ∈ s, c.isWhitespace = true := by
  induction s with
  | nil => intro cur _ c hc; cases hc
  | cons a rest ih =>
    intro cur h c hc
    unfold wordsAux at h
    by_cases hw : a.isWhitespace
    · simp only [hw, if_true] at h
      rcases List.mem_cons.mp hc with rfl | hc2
      · exact hw
      · by_cases he : cur.isEmpty
        · simp only [he, if_true] at h
          exact ih [] h c hc2
        · simp only [he, Bool.false_eq_true, if_false] at h
          cases h
    · simp only [hw, Bool.false_eq_true, if_false] at h
      have := wordsAux_eq_nil_cur rest (a :: cur) h
      cases this

/-- C9: no density or score calculation divides by zero: the two
validator scores divide by `max(word_count, 1)`, always positive, and the
classifier's surprise density divides by `word_count` only when breaks
were detected, which forces at least one word. -/
theorem c9_division_denominators (content : List Char) :
    0 < max (wordCount content) 1
    ∧ ((detect_breaks content).isEmpty = false → 0 < wordCount content) := by
  constructor
  · exact lt_of_lt_of_le Nat.one_pos (le_max_right _ _)
  · intro hb
    by_contra h0
    have hz : wordCount content = 0 := by omega
    have hnil : pwords content = [] := List.length_eq_zero.mp hz
    have hws : ∀ c ∈ content, c.isWhitespace = true :=
      wordsAux_eq_nil_ws content [] hnil
    rw [detect_breaks_allWhitespace content hws] at hb
    cases hb

/-- Witness for C9 at a text with a detected break. -/
theorem c9_division_denominators_witness :
    (detect_breaks ("but it".data)).isEmpty = false
    ∧ 0 < wordCount ("but it".data) :=
  ⟨by decide, (c9_division_denominators ("but it".data)).2 (by decide)⟩

end TIM
